import Mathlib

/-!
Verification of the TenderLens frontend recommendation client against its
specification.  Each definition below is a shallow embedding of a function or
constant from the TypeScript sources under src/frontend; JavaScript numbers
are modelled as ℚ or Int, JS arrays as List, JS Set as a duplicate-free List,
optional / possibly-undefined values as Option.
-/

namespace TenderLens

/- ===================================================================
   src/frontend/src/types/recommendation.ts — score display constants
   and helpers (MATCH_SCORE_THRESHOLDS, MATCH_SCORE_COLORS,
   getScoreColor, getScoreLabel, getScoreBadgeClass)
   =================================================================== -/

namespace MATCH_SCORE_THRESHOLDS

def EXCELLENT : ℚ := 80
def GOOD : ℚ := 60
def FAIR : ℚ := 40
def POOR : ℚ := 20

end MATCH_SCORE_THRESHOLDS

namespace MATCH_SCORE_COLORS

def EXCELLENT : String := "text-green-600 bg-green-50 border-green-200"
def GOOD : String := "text-blue-600 bg-blue-50 border-blue-200"
def FAIR : String := "text-yellow-600 bg-yellow-50 border-yellow-200"
def POOR : String := "text-gray-600 bg-gray-50 border-gray-200"

end MATCH_SCORE_COLORS

def getScoreColor (score : ℚ) : String :=
  if score ≥ MATCH_SCORE_THRESHOLDS.EXCELLENT then MATCH_SCORE_COLORS.EXCELLENT
  else if score ≥ MATCH_SCORE_THRESHOLDS.GOOD then MATCH_SCORE_COLORS.GOOD
  else if score ≥ MATCH_SCORE_THRESHOLDS.FAIR then MATCH_SCORE_COLORS.FAIR
  else MATCH_SCORE_COLORS.POOR

def getScoreLabel (score : ℚ) : String :=
  if score ≥ MATCH_SCORE_THRESHOLDS.EXCELLENT then "Excellent Match"
  else if score ≥ MATCH_SCORE_THRESHOLDS.GOOD then "Good Match"
  else if score ≥ MATCH_SCORE_THRESHOLDS.FAIR then "Fair Match"
  else "Low Match"

def getScoreBadgeClass (score : ℚ) : String :=
  let baseClasses :=
    "inline-flex items-center px-2.5 py-0.5 rounded-full text-xs font-medium border"
  let colorClass := getScoreColor score
  baseClasses ++ " " ++ colorClass

/-- Spec-side abstraction for stating C10: the category index of a score
(3 = excellent, 2 = good, 1 = fair, 0 = low/poor), with the same boundary
comparisons as the source helpers. -/
def scoreCategory (score : ℚ) : Nat :=
  if score ≥ MATCH_SCORE_THRESHOLDS.EXCELLENT then 3
  else if score ≥ MATCH_SCORE_THRESHOLDS.GOOD then 2
  else if score ≥ MATCH_SCORE_THRESHOLDS.FAIR then 1
  else 0

/-- Spec-side: the label belonging to each category index. -/
def categoryLabel : Nat → String
  | 3 => "Excellent Match"
  | 2 => "Good Match"
  | 1 => "Fair Match"
  | _ => "Low Match"

/-- Spec-side: the color belonging to each category index. -/
def categoryColor : Nat → String
  | 3 => MATCH_SCORE_COLORS.EXCELLENT
  | 2 => MATCH_SCORE_COLORS.GOOD
  | 1 => MATCH_SCORE_COLORS.FAIR
  | _ => MATCH_SCORE_COLORS.POOR

/- ===================================================================
   src/frontend/src/types/profile.ts — VALIDATION constants, and
   src/frontend/src/components/profile/ProfileSetupWizard.tsx —
   step1Data state and isStep1Valid
   =================================================================== -/

namespace VALIDATION

namespace ACTIVE_SECTORS

def MIN : Nat := 1
def MAX : Nat := 5

end ACTIVE_SECTORS

namespace KEYWORDS

def MIN : Nat := 3
def MAX : Nat := 10

end KEYWORDS

namespace REGIONS

def MIN : Nat := 1
def MAX : Nat := 5

end REGIONS

end VALIDATION

/-- The wizard's step-1 draft state.  The TS type is a
Partial CompanyProfileCreateStep1, so every field may be undefined;
absent fields are `none`. -/
structure Step1Data where
  primary_sector : Option String := none
  active_sectors : Option (List String) := none
  sub_sectors : Option (List String) := none
  preferred_regions : Option (List String) := none
  keywords : Option (List String) := none

/-- JS truthiness of a possibly-undefined string: undefined and the empty
string are falsy. -/
def truthyStr : Option String → Bool
  | some s => decide (s ≠ "")
  | none => false

/-- JS truthiness of a possibly-undefined array: every array object is
truthy (even the empty one); undefined is falsy. -/
def truthyList : Option (List String) → Bool
  | some _ => true
  | none => false

/-- Embedding of isStep1Valid from ProfileSetupWizard.tsx.  Note: the source
checks MIN and MAX for active_sectors and keywords but only MIN for
preferred_regions, and only presence (truthiness) for sub_sectors. -/
def isStep1Valid (d : Step1Data) : Bool :=
  truthyStr d.primary_sector
  && truthyList d.active_sectors
  && decide ((d.active_sectors.getD []).length ≥ VALIDATION.ACTIVE_SECTORS.MIN)
  && decide ((d.active_sectors.getD []).length ≤ VALIDATION.ACTIVE_SECTORS.MAX)
  && truthyList d.sub_sectors
  && truthyList d.preferred_regions
  && decide ((d.preferred_regions.getD []).length ≥ VALIDATION.REGIONS.MIN)
  && truthyList d.keywords
  && decide ((d.keywords.getD []).length ≥ VALIDATION.KEYWORDS.MIN)
  && decide ((d.keywords.getD []).length ≤ VALIDATION.KEYWORDS.MAX)

/- ===================================================================
   src/frontend/src/components/recommendations/RecommendationCard.tsx —
   urgency marker of the detailed card
   =================================================================== -/

/-- Embedding of the urgency-marker condition of RecommendationCard:
the deadline block renders only when tender.deadline is set, and inside it
the lightning marker renders when isUrgent (days_until_deadline ≤ 7) and
not isExpired (days_until_deadline < 0). -/
def showsUrgencyMarker (deadline : Option String) (days_until_deadline : Int) : Bool :=
  let isUrgent := decide (days_until_deadline ≤ 7)
  let isExpired := decide (days_until_deadline < 0)
  deadline.isSome && (isUrgent && !isExpired)

/- ===================================================================
   src/frontend/src/lib/error-utils.ts — getErrorMessage
   =================================================================== -/

/-- One element of a FastAPI-style validation error array (interface
ValidationError in error-utils.ts); only msg is read by the code. -/
structure ValidationErrorJs where
  ty : String
  loc : List String
  msg : String

/-- The dynamic value of error.response.data.detail: a validation-error
array, a string, or anything else (object, number, null ...). -/
inductive DetailValue
  | arr (errors : List ValidationErrorJs)
  | str (s : String)
  | other

/-- error.response.data as read by getErrorMessage. -/
structure ErrorData where
  detail : Option DetailValue := none
  message : Option String := none

/-- error.response: axios stores the payload under data. -/
structure ErrorResponse where
  data : Option ErrorData := none

/-- The untyped error value handed to getErrorMessage; only the fields the
function reads are modelled. -/
structure ApiError where
  response : Option ErrorResponse := none
  message : Option String := none

/-- error.response?.data? — the optional-chaining prefix shared by the
detail and message reads. -/
def ApiError.dataOpt (e : ApiError) : Option ErrorData :=
  e.response.bind (fun r => r.data)

/-- error.response?.data?.detail. -/
def ApiError.detailOpt (e : ApiError) : Option DetailValue :=
  e.dataOpt.bind (fun d => d.detail)

/-- error.response?.data?.message. -/
def ApiError.dataMessage (e : ApiError) : Option String :=
  e.dataOpt.bind (fun d => d.message)

/-- Embedding of getErrorMessage: Array.isArray(detail) with length > 0
returns the first element's msg (an empty array falls through); a string
detail is returned as-is (even empty, since the source tests typeof, not
truthiness); then the truthiness checks on response.data.message and
error.message; else the fixed fallback. -/
def getErrorMessage (error : ApiError) : String :=
  match error.detailOpt with
  | some (DetailValue.arr (first :: _)) => first.msg
  | some (DetailValue.str s) => s
  | _ =>
    if truthyStr error.dataMessage then error.dataMessage.getD ""
    else if truthyStr error.message then error.message.getD ""
    else "An error occurred. Please try again."

/- ===================================================================
   src/frontend/src/lib/recommendations.ts — getRecommendations and
   submitFeedback
   =================================================================== -/

/-- RecommendationFilters from types/recommendation.ts; JS numbers as Int. -/
structure RecommendationFilters where
  limit : Option Int := none
  min_score : Option Int := none
  days_ahead : Option Int := none
  sectors : Option (List String) := none
  regions : Option (List String) := none

/-- Embedding of the URLSearchParams built by getRecommendations: limit
defaults to 20, days_ahead to 7, min_score is appended only when supplied,
and each element of a non-empty sectors / regions list is appended as a
repeated parameter.  No value is clamped. -/
def getRecommendationsParams (filters : RecommendationFilters) : List (String × String) :=
  let limit := filters.limit.getD 20
  let days_ahead := filters.days_ahead.getD 7
  let p1 := [("limit", toString limit)]
  let p2 := match filters.min_score with
    | some m => p1 ++ [("min_score", toString m)]
    | none => p1
  let p3 := p2 ++ [("days_ahead", toString days_ahead)]
  let p4 := match filters.sectors with
    | some ss => if ss.length > 0 then p3 ++ ss.map (fun s => ("sectors", s)) else p3
    | none => p3
  let p5 := match filters.regions with
    | some rs => if rs.length > 0 then p4 ++ rs.map (fun r => ("regions", r)) else p4
    | none => p4
  p5

/-- The interaction_type union from types/recommendation.ts. -/
inductive InteractionType
  | view | save | dismiss | apply | rate_positive | rate_negative
deriving DecidableEq

/-- FeedbackRequest body for POST /recommendations/feedback/tender_id. -/
structure FeedbackRequest where
  interaction_type : InteractionType
  feedback_reason : Option String := none
  time_spent_seconds : Option Int := none

/-- FeedbackResponse from the same endpoint. -/
structure FeedbackResponse where
  success : Bool
  interaction_id : String
  message : String
deriving DecidableEq

/-- An axios POST with a JSON body, as issued by submitFeedback. -/
structure PostRequest where
  url : String
  body : FeedbackRequest

/-- An axios response wrapper; the client returns response.data. -/
structure AxiosResponse (α : Type) where
  data : α

/-- Embedding of submitFeedback: one POST to
API_URL/recommendations/feedback/tenderId with the feedback object as the
body, returning the parsed response.data.  The transport is the function
argument post; apiUrl stands for the module constant API_URL. -/
def submitFeedback (apiUrl : String)
    (post : PostRequest → AxiosResponse FeedbackResponse)
    (tenderId : String) (feedback : FeedbackRequest) : FeedbackResponse :=
  let response := post
    { url := apiUrl ++ "/recommendations/feedback/" ++ tenderId
      body := feedback }
  response.data

/- ===================================================================
   src/frontend/src/hooks/useRecommendations.ts — useTenderActions:
   optimistic saved / dismissed sets with rollback on error
   =================================================================== -/

/-- JS Set.add on an insertion-ordered duplicate-free list. -/
def jsSetAdd (s : List String) (x : String) : List String :=
  if x ∈ s then s else s ++ [x]

/-- JS Set.delete. -/
def jsSetDelete (s : List String) (x : String) : List String :=
  s.filter (fun y => y ≠ x)

/-- Embedding of saveTender: add tenderId to savedTenders optimistically;
if submitFeedback rejects, delete it again and rethrow.  The outcome of the
awaited submitFeedback call is the submitResult argument; the returned pair
is (savedTenders afterwards, the settled promise). -/
def saveTender (submitResult : Except String FeedbackResponse)
    (savedTenders : List String) (tenderId : String) :
    List String × Except String Unit :=
  let optimistic := jsSetAdd savedTenders tenderId
  match submitResult with
  | Except.ok _ => (optimistic, Except.ok ())
  | Except.error e => (jsSetDelete optimistic tenderId, Except.error e)

/-- Embedding of dismissTender, identical to saveTender on the
dismissedTenders set; reason is forwarded to submitFeedback and does not
affect the local state. -/
def dismissTender (submitResult : Except String FeedbackResponse)
    (dismissedTenders : List String) (tenderId : String)
    (reason : Option String) : List String × Except String Unit :=
  let _ := reason
  let optimistic := jsSetAdd dismissedTenders tenderId
  match submitResult with
  | Except.ok _ => (optimistic, Except.ok ())
  | Except.error e => (jsSetDelete optimistic tenderId, Except.error e)

/- ===================================================================
   src/frontend/src/hooks/useTenders.ts — useInteractionTracking:
   the view-on-unmount tracking of a mounted tender view
   =================================================================== -/

/-- Embedding of one effect cycle of useInteractionTracking: the effect
body skips when not enabled or already tracked, otherwise its cleanup
computes timeSpent = floor(elapsed ms / 1000) and submits a view
interaction (setting the tracked flag) exactly when timeSpent ≥ 5.
Returns (submitted time_spent_seconds if any, tracked flag afterwards). -/
def viewCleanup (enabled : Bool) (tracked : Bool) (elapsedMs : Nat) :
    Option Nat × Bool :=
  if !enabled || tracked then (none, tracked)
  else
    let timeSpent := elapsedMs / 1000
    if timeSpent ≥ 5 then (some timeSpent, true) else (none, tracked)

/-- The view submissions over a whole mount: the effect re-runs on
dependency changes, each cycle resetting startTime and ending in its
cleanup; elapsed lists the elapsed milliseconds of each cycle, and the
tracked ref persists across cycles. -/
def viewSubmissions (enabled : Bool) : List Nat → Bool → List Nat
  | [], _ => []
  | elapsedMs :: rest, tracked =>
    match viewCleanup enabled tracked elapsedMs with
    | (some t, tracked2) => t :: viewSubmissions enabled rest tracked2
    | (none, tracked2) => viewSubmissions enabled rest tracked2

/- ===================================================================
   src/frontend/src/types/recommendation.ts — MatchReason.type,
   REASON_TYPE_ICONS, REASON_TYPE_LABELS (rendered in MatchReasons.tsx)
   =================================================================== -/

/-- The string-literal union of MatchReason.type in the source: exactly
these seven tags are admitted by the type. -/
def matchReasonTypes : List String :=
  ["semantic_match", "sector_match", "subsector_match", "keyword_match",
   "region_match", "budget_match", "urgency"]

/-- The eleven-element MatchReason tag set of the spec (§3 MatchReason). -/
def specMatchReasonTags : List String :=
  ["semantic_match", "sector_match", "subsector_match", "keyword_match",
   "region_match", "budget_match", "urgency", "certification_match",
   "language_match", "deadline_match", "popularity_boost"]

/-- REASON_TYPE_ICONS as a key/value map; indexing with a key outside the
map is undefined in JS, here lookup = none. -/
def REASON_TYPE_ICONS : List (String × String) :=
  [("semantic_match", "🧠"), ("sector_match", "🏢"),
   ("subsector_match", "🎯"), ("keyword_match", "🔑"),
   ("region_match", "📍"), ("budget_match", "💰"), ("urgency", "⚡")]

/-- REASON_TYPE_LABELS as a key/value map. -/
def REASON_TYPE_LABELS : List (String × String) :=
  [("semantic_match", "Semantic Match"), ("sector_match", "Sector Match"),
   ("subsector_match", "Specialization"), ("keyword_match", "Keyword Match"),
   ("region_match", "Region Match"), ("budget_match", "Budget Fit"),
   ("urgency", "Urgent Deadline")]

/- ===================================================================
   Matcher rank step (backend; spec §4.4 step 6, §8 property 2).
   The backend Matcher is not among the repository's source files, so
   its ranking is modelled from the spec's ordering sentence.
   =================================================================== -/

/-- Modelled from the spec: one row of a recommendation response carrying
the three ranking keys of §4.4 / §8 property 2 (the backend Matcher that
produces and orders these rows is not under the repository's src/). -/
structure RecItem where
  tender_id : String
  match_score : ℚ
  semantic_similarity : ℚ

/-- Modelled from the spec: the response order — match_score descending,
ties by semantic_similarity descending, ties by tender_id ascending. -/
def recRank (a b : RecItem) : Prop :=
  b.match_score < a.match_score ∨
    (a.match_score = b.match_score ∧
      (b.semantic_similarity < a.semantic_similarity ∨
        (a.semantic_similarity = b.semantic_similarity ∧
          a.tender_id ≤ b.tender_id)))

instance : DecidableRel recRank := fun a b => by
  unfold recRank
  exact inferInstance

instance : IsTotal RecItem recRank := by
  constructor
  intro a b
  rcases lt_trichotomy a.match_score b.match_score with h | h | h
  · exact Or.inr (Or.inl h)
  · rcases lt_trichotomy a.semantic_similarity b.semantic_similarity with h2 | h2 | h2
    · exact Or.inr (Or.inr ⟨h.symm, Or.inl h2⟩)
    · rcases le_total a.tender_id b.tender_id with h3 | h3
      · exact Or.inl (Or.inr ⟨h, Or.inr ⟨h2, h3⟩⟩)
      · exact Or.inr (Or.inr ⟨h.symm, Or.inr ⟨h2.symm, h3⟩⟩)
    · exact Or.inl (Or.inr ⟨h, Or.inl h2⟩)
  · exact Or.inl (Or.inl h)

instance : IsTrans RecItem recRank := by
  constructor
  intro a b c hab hbc
  rcases hab with h1 | ⟨e1, h1⟩
  · rcases hbc with h2 | ⟨e2, h2⟩
    · exact Or.inl (lt_trans h2 h1)
    · exact Or.inl (by rw [← e2]; exact h1)
  · rcases hbc with h2 | ⟨e2, h2⟩
    · exact Or.inl (by rw [e1]; exact h2)
    · refine Or.inr ⟨e1.trans e2, ?_⟩
      rcases h1 with s1 | ⟨f1, i1⟩
      · rcases h2 with s2 | ⟨f2, i2⟩
        · exact Or.inl (lt_trans s2 s1)
        · exact Or.inl (by rw [← f2]; exact s1)
      · rcases h2 with s2 | ⟨f2, i2⟩
        · exact Or.inl (by rw [f1]; exact s2)
        · exact Or.inr ⟨f1.trans f2, le_trans i1 i2⟩

/-- Modelled from the spec: the Matcher's rank step orders the scored,
threshold-cut items by the comparator above. -/
def rankRecommendations (items : List RecItem) : List RecItem :=
  List.insertionSort recRank items

/-- A step-1 draft whose preferred_regions has six elements and which
meets every other Tier-1 bound (input of C2's theorem). -/
def sixRegionDraft : Step1Data :=
  { primary_sector := some "Construction"
    active_sectors := some ["Construction"]
    sub_sectors := some []
    preferred_regions := some
      ["Addis Ababa", "Oromia", "Amhara", "Tigray", "Sidama", "Afar"]
    keywords := some ["roads", "bridges", "buildings"] }

/-- An error whose detail is an empty validation array and whose
response.data.message is set (input of C9's witness). -/
def emptyDetailError : ApiError :=
  ⟨some ⟨some ⟨some (DetailValue.arr []), some "Profile not found"⟩⟩, none⟩

/- ===================================================================
   Theorems
   =================================================================== -/

/-- C10: the score-display helpers are total (getScoreLabel always returns
one of the four labels), boundary scores 80 / 60 / 40 map to the higher
category, the category is monotone in the score, getScoreColor and
getScoreLabel agree on the category, and getScoreBadgeClass contains
getScoreColor as a substring (here: as a suffix). -/
theorem score_helpers_total_monotone :
    (∀ s : ℚ, getScoreLabel s = "Excellent Match" ∨ getScoreLabel s = "Good Match" ∨
      getScoreLabel s = "Fair Match" ∨ getScoreLabel s = "Low Match") ∧
    (getScoreLabel 80 = "Excellent Match" ∧ getScoreLabel 60 = "Good Match" ∧
      getScoreLabel 40 = "Fair Match") ∧
    (∀ s1 s2 : ℚ, s1 ≤ s2 → scoreCategory s1 ≤ scoreCategory s2) ∧
    (∀ s : ℚ, getScoreLabel s = categoryLabel (scoreCategory s) ∧
      getScoreColor s = categoryColor (scoreCategory s)) ∧
    (∀ s : ℚ, ∃ a : String, getScoreBadgeClass s = a ++ getScoreColor s) := by
  refine ⟨?_, ?_, ?_, ?_, ?_⟩
  · intro s
    unfold getScoreLabel
    split_ifs <;> tauto
  · refine ⟨?_, ?_, ?_⟩ <;>
      norm_num [getScoreLabel, MATCH_SCORE_THRESHOLDS.EXCELLENT,
        MATCH_SCORE_THRESHOLDS.GOOD, MATCH_SCORE_THRESHOLDS.FAIR]
  · intro s1 s2 h
    unfold scoreCategory
    split_ifs <;> first | omega | linarith
  · intro s
    constructor
    · unfold getScoreLabel scoreCategory
      split_ifs <;> rfl
    · unfold getScoreColor scoreCategory
      split_ifs <;> rfl
  · intro s
    exact ⟨"inline-flex items-center px-2.5 py-0.5 rounded-full text-xs font-medium border ",
      rfl⟩

/-- C2 (code_bug): isStep1Valid accepts a draft with six preferred
regions although VALIDATION.REGIONS.MAX is 5 — the source checks the
regions MIN bound but, unlike for active_sectors and keywords, never the
MAX bound, so the Tier-1 rule preferred_regions (1–5) is not enforced. -/
theorem isStep1Valid_accepts_six_regions :
    isStep1Valid sixRegionDraft = true ∧
    (sixRegionDraft.preferred_regions.getD []).length = 6 ∧
    VALIDATION.REGIONS.MAX = 5 := by decide

/-- C6 counterexample: a recommendation with a deadline and
days_until_deadline = 0 does carry the urgency marker, although 0 is
outside the interval [1,7]. -/
theorem urgency_marker_day_zero :
    showsUrgencyMarker (some "2026-10-20") 0 = true ∧
    ¬(1 ≤ (0 : Int) ∧ (0 : Int) ≤ 7) := by decide

/-- C6 (amended): the urgency marker on the recommendation card is shown
exactly when a deadline is present and days_until_deadline lies in [0,7];
without a deadline no marker is shown. -/
theorem urgency_marker_iff :
    ∀ (deadline : String) (days : Int),
      (showsUrgencyMarker (some deadline) days = true ↔ 0 ≤ days ∧ days ≤ 7) ∧
      showsUrgencyMarker none days = false := by
  intro deadline days
  constructor
  · constructor
    · intro h
      simp only [showsUrgencyMarker, Option.isSome_some, Bool.true_and,
        Bool.and_eq_true, Bool.not_eq_true', decide_eq_true_eq,
        decide_eq_false_iff_not] at h
      omega
    · intro h
      simp only [showsUrgencyMarker, Option.isSome_some, Bool.true_and,
        Bool.and_eq_true, Bool.not_eq_true', decide_eq_true_eq,
        decide_eq_false_iff_not]
      omega
  · simp [showsUrgencyMarker]

/-- Helper for C9: when detail is neither a non-empty validation-error
array nor a string, getErrorMessage reduces to the message fallback
chain. -/
theorem getErrorMessage_fallthrough (e : ApiError)
    (hd : ∀ v l, e.detailOpt ≠ some (DetailValue.arr (v :: l)))
    (hs : ∀ s, e.detailOpt ≠ some (DetailValue.str s)) :
    getErrorMessage e =
      if truthyStr e.dataMessage then e.dataMessage.getD ""
      else if truthyStr e.message then e.message.getD ""
      else "An error occurred. Please try again." := by
  unfold getErrorMessage
  cases h : e.detailOpt with
  | none => rfl
  | some dv =>
    cases dv with
    | arr errors =>
      cases errors with
      | nil => rfl
      | cons v l => exact absurd h (hd v l)
    | str s => exact absurd h (hs s)
    | other => rfl

/-- C9: getErrorMessage is total (it is a Lean function into String) and
follows the fixed precedence: a non-empty detail array yields the first
element's msg; a string detail is returned; otherwise a truthy
response.data.message, then a truthy error.message, then the fixed
fallback — in particular an empty detail array falls through to the later
cases.  Presence of a message is JS truthiness: an empty string counts as
absent, exactly as the source's if-tests do. -/
theorem getErrorMessage_precedence :
    ∀ e : ApiError,
      (∀ v l, e.detailOpt = some (DetailValue.arr (v :: l)) →
        getErrorMessage e = v.msg) ∧
      (∀ s, e.detailOpt = some (DetailValue.str s) → getErrorMessage e = s) ∧
      ((∀ v l, e.detailOpt ≠ some (DetailValue.arr (v :: l))) →
        (∀ s, e.detailOpt ≠ some (DetailValue.str s)) →
        (∀ m, e.dataMessage = some m → m ≠ "" → getErrorMessage e = m) ∧
        (truthyStr e.dataMessage = false →
          (∀ m, e.message = some m → m ≠ "" → getErrorMessage e = m) ∧
          (truthyStr e.message = false →
            getErrorMessage e = "An error occurred. Please try again."))) := by
  intro e
  refine ⟨?_, ?_, ?_⟩
  · intro v l h
    unfold getErrorMessage
    rw [h]
  · intro s h
    unfold getErrorMessage
    rw [h]
  · intro hd hs
    rw [getErrorMessage_fallthrough e hd hs]
    refine ⟨?_, ?_⟩
    · intro m hm hne
      simp [hm, truthyStr, hne]
    · intro hfalse
      rw [if_neg (by simp [hfalse])]
      refine ⟨?_, ?_⟩
      · intro m hm hne
        simp [hm, truthyStr, hne]
      · intro hfalse2
        rw [if_neg (by simp [hfalse2])]

/-- C9 witness: a response whose detail is an empty array and whose
data.message is set falls through to data.message. -/
theorem getErrorMessage_precedence_witness :
    getErrorMessage emptyDetailError = "Profile not found" := by
  have h := (getErrorMessage_precedence emptyDetailError).2.2
  exact (h (by intro v l hc; simp [emptyDetailError, ApiError.detailOpt, ApiError.dataOpt] at hc)
    (by intro s hc; simp [emptyDetailError, ApiError.detailOpt, ApiError.dataOpt] at hc)).1
    "Profile not found" rfl (by decide)

/-- C1 counterexample: a caller-supplied limit of 500 is forwarded to the
query string unclamped, so the request does not satisfy the contract
limit ≤ 100. -/
theorem getRecommendations_limit_unclamped :
    ("limit", "500") ∈ getRecommendationsParams { limit := some 500 } ∧
    (500 : Int) > 100 := by decide

/-- Helper for C1: the first limit parameter of the query. -/
theorem getRecParams_lookup_limit (f : RecommendationFilters) :
    (getRecommendationsParams f).lookup "limit" =
      some (toString (f.limit.getD 20)) := by
  obtain ⟨lim, ms, da, sec, reg⟩ := f
  rcases ms with _ | m <;> rcases sec with _ | ss <;> rcases reg with _ | rs <;>
    (simp only [getRecommendationsParams]; (try split_ifs) <;>
      simp +decide [List.lookup])

/-- Helper for C1: the first days_ahead parameter of the query. -/
theorem getRecParams_lookup_days_ahead (f : RecommendationFilters) :
    (getRecommendationsParams f).lookup "days_ahead" =
      some (toString (f.days_ahead.getD 7)) := by
  obtain ⟨lim, ms, da, sec, reg⟩ := f
  rcases ms with _ | m <;> rcases sec with _ | ss <;> rcases reg with _ | rs <;>
    (simp only [getRecommendationsParams]; (try split_ifs) <;>
      simp +decide [List.lookup])

/-- Helper for C1: lookup misses a constant-key map whose key differs. -/
theorem lookup_map_const_key (a k : String) (h : (a == k) = false)
    (l : List String) : (l.map (fun s => (k, s))).lookup a = none := by
  induction l with
  | nil => rfl
  | cons x t ih => simp [List.lookup, h, ih]

/-- Helper for C1: lookup passes over an appended constant-key map whose
key differs. -/
theorem lookup_map_const_key_append (a k : String) (h : (a == k) = false)
    (l : List String) (rest : List (String × String)) :
    ((l.map (fun s => (k, s))) ++ rest).lookup a = rest.lookup a := by
  induction l with
  | nil => rfl
  | cons x t ih => simp [List.lookup, h, ih]

/-- Helper for C1: the min_score parameter is present iff supplied. -/
theorem getRecParams_lookup_min_score (f : RecommendationFilters) :
    (getRecommendationsParams f).lookup "min_score" =
      f.min_score.map (fun m => toString m) := by
  obtain ⟨lim, ms, da, sec, reg⟩ := f
  rcases ms with _ | m <;> rcases sec with _ | ss <;> rcases reg with _ | rs <;>
    (simp only [getRecommendationsParams]; (try split_ifs) <;>
      simp +decide [List.lookup,
        lookup_map_const_key "min_score" "sectors" (by decide),
        lookup_map_const_key "min_score" "regions" (by decide),
        lookup_map_const_key_append "min_score" "sectors" (by decide),
        lookup_map_const_key_append "min_score" "regions" (by decide)])

/-- Helper for C1: every supplied sector appears as a repeated parameter. -/
theorem getRecParams_mem_sectors (f : RecommendationFilters)
    (ss : List String) (s : String) (h : f.sectors = some ss) (hs : s ∈ ss) :
    ("sectors", s) ∈ getRecommendationsParams f := by
  obtain ⟨lim, ms, da, sec, reg⟩ := f
  replace h : sec = some ss := h
  subst h
  have hlen : 0 < ss.length := List.length_pos.mpr (List.ne_nil_of_mem hs)
  have hmem : ("sectors", s) ∈ ss.map (fun x => ("sectors", x)) :=
    List.mem_map_of_mem _ hs
  rcases ms with _ | m <;> rcases reg with _ | rs <;>
    (simp only [getRecommendationsParams]; (try split_ifs) <;>
      first
      | omega
      | simp_all [List.mem_append, List.mem_map])

/-- Helper for C1: every supplied region appears as a repeated parameter. -/
theorem getRecParams_mem_regions (f : RecommendationFilters)
    (rs : List String) (r : String) (h : f.regions = some rs) (hr : r ∈ rs) :
    ("regions", r) ∈ getRecommendationsParams f := by
  obtain ⟨lim, ms, da, sec, reg⟩ := f
  replace h : reg = some rs := h
  subst h
  have hlen : 0 < rs.length := List.length_pos.mpr (List.ne_nil_of_mem hr)
  have hmem : ("regions", r) ∈ rs.map (fun x => ("regions", x)) :=
    List.mem_map_of_mem _ hr
  rcases ms with _ | m <;> rcases sec with _ | ss <;>
    (simp only [getRecommendationsParams]; (try split_ifs) <;>
      first
      | omega
      | simp_all [List.mem_append, List.mem_map])

/-- C1 (amended): the query built by getRecommendations carries limit
equal to filters.limit when supplied and 20 when absent (the client does
not clamp it to 100), days_ahead equal to filters.days_ahead when supplied
and 7 when absent, min_score exactly when the caller supplied it, and
every element of sectors and regions as a repeated parameter. -/
theorem getRecommendations_query_contract :
    ∀ f : RecommendationFilters,
      (getRecommendationsParams f).lookup "limit" =
        some (toString (f.limit.getD 20)) ∧
      (getRecommendationsParams f).lookup "days_ahead" =
        some (toString (f.days_ahead.getD 7)) ∧
      (getRecommendationsParams f).lookup "min_score" =
        f.min_score.map (fun m => toString m) ∧
      (∀ ss s, f.sectors = some ss → s ∈ ss →
        ("sectors", s) ∈ getRecommendationsParams f) ∧
      (∀ rs r, f.regions = some rs → r ∈ rs →
        ("regions", r) ∈ getRecommendationsParams f) :=
  fun f =>
    ⟨getRecParams_lookup_limit f, getRecParams_lookup_days_ahead f,
     getRecParams_lookup_min_score f,
     fun ss s h hs => getRecParams_mem_sectors f ss s h hs,
     fun rs r h hr => getRecParams_mem_regions f rs r h hr⟩

/-- C5 counterexample: certification_match is in the spec's eleven-element
tag set but is not admitted by the source's MatchReason type, and the icon
and label lookups at it are undefined. -/
theorem matchReason_certification_not_admitted :
    "certification_match" ∈ specMatchReasonTags ∧
    "certification_match" ∉ matchReasonTypes ∧
    REASON_TYPE_ICONS.lookup "certification_match" = none ∧
    REASON_TYPE_LABELS.lookup "certification_match" = none := by decide

/-- C5 (amended): for every tag of the source's seven-element
MatchReason.type union, the REASON_TYPE_ICONS and REASON_TYPE_LABELS
lookups used by the rendering branch are defined. -/
theorem matchReason_source_tags_renderable :
    ∀ tag, tag ∈ matchReasonTypes →
      (REASON_TYPE_ICONS.lookup tag).isSome = true ∧
      (REASON_TYPE_LABELS.lookup tag).isSome = true := by decide

/-- C5 witness: the urgency tag is in the source union and its icon and
label lookups are defined. -/
theorem matchReason_source_tags_renderable_witness :
    (REASON_TYPE_ICONS.lookup "urgency").isSome = true ∧
    (REASON_TYPE_LABELS.lookup "urgency").isSome = true :=
  matchReason_source_tags_renderable "urgency" (by decide)

/-- C7: submitFeedback issues its one POST to the path
/recommendations/feedback/tenderId under the API root, the body carries
interaction_type and the optional feedback_reason and time_spent_seconds
exactly as supplied, and the parsed response data is returned unchanged. -/
theorem submitFeedback_request_shape :
    ∀ (apiUrl : String) (post : PostRequest → AxiosResponse FeedbackResponse)
      (tenderId : String) (feedback : FeedbackRequest),
      submitFeedback apiUrl post tenderId feedback =
        (post { url := apiUrl ++ "/recommendations/feedback/" ++ tenderId
                body := feedback }).data ∧
      (∀ req : PostRequest,
        req.url = apiUrl ++ "/recommendations/feedback/" ++ tenderId →
        req.body = feedback →
        req.body.interaction_type = feedback.interaction_type ∧
        req.body.feedback_reason = feedback.feedback_reason ∧
        req.body.time_spent_seconds = feedback.time_spent_seconds) := by
  intro apiUrl post tenderId feedback
  exact ⟨rfl, fun req _ hb => by rw [hb]; exact ⟨rfl, rfl, rfl⟩⟩

/-- C8 counterexample: when the tender was already in the saved set, the
error rollback removes it, so the set after the failed call differs from
its value before the call. -/
theorem saveTender_rollback_removes_preexisting :
    saveTender (Except.error "Network Error") ["t1"] "t1" =
      ([], Except.error "Network Error") ∧
    ([] : List String) ≠ ["t1"] := by
  refine ⟨?_, by decide⟩
  simp [saveTender, jsSetAdd, jsSetDelete]

/-- C8 (amended): for a tenderId not already in the set before the call,
a rejected submission leaves savedTenders (respectively dismissedTenders)
equal to its prior value — the optimistically added id is removed — and
the error is rethrown. -/
theorem tenderActions_rollback_atomic
    (e : String) (s : List String) (tenderId : String)
    (reason : Option String) (h : tenderId ∉ s) :
    saveTender (Except.error e) s tenderId = (s, Except.error e) ∧
    dismissTender (Except.error e) s tenderId reason = (s, Except.error e) := by
  have hset : jsSetDelete (jsSetAdd s tenderId) tenderId = s := by
    unfold jsSetAdd jsSetDelete
    rw [if_neg h, List.filter_append]
    simp only [List.filter_cons, List.filter_nil]
    rw [List.filter_eq_self.mpr]
    · simp
    · intro y hy
      simp only [decide_eq_true_eq]
      intro hEq
      exact h (hEq ▸ hy)
  constructor
  · show (jsSetDelete (jsSetAdd s tenderId) tenderId,
        (Except.error e : Except String Unit)) = (s, Except.error e)
    rw [hset]
  · show (jsSetDelete (jsSetAdd s tenderId) tenderId,
        (Except.error e : Except String Unit)) = (s, Except.error e)
    rw [hset]

/-- C8 witness: a failed save on a fresh tender id leaves the empty saved
set unchanged and rethrows the error. -/
theorem tenderActions_rollback_atomic_witness :
    saveTender (Except.error "boom") [] "t9" = ([], Except.error "boom") ∧
    dismissTender (Except.error "boom") [] "t9" (some "Wrong location") =
      ([], Except.error "boom") :=
  tenderActions_rollback_atomic "boom" [] "t9" (some "Wrong location")
    (by decide)

/-- Helper for C4: once the tracked ref is set, no further view is
submitted in later effect cycles. -/
theorem viewSubmissions_tracked (enabled : Bool) (cycles : List Nat) :
    viewSubmissions enabled cycles true = [] := by
  induction cycles with
  | nil => rfl
  | cons c rest ih =>
    unfold viewSubmissions viewCleanup
    cases enabled <;> simp [ih]

/-- Helper for C4: a first untracked cleanup either submits nothing and
leaves the flag clear, or submits the floored elapsed seconds and sets
the flag. -/
theorem viewCleanup_false_cases (enabled : Bool) (c : Nat) :
    viewCleanup enabled false c = (none, false) ∨
    viewCleanup enabled false c = (some (c / 1000), true) := by
  unfold viewCleanup
  cases enabled with
  | false => simp
  | true =>
    simp
    omega

/-- Helper for C4: every sequence of effect cycles submits at most one
view interaction. -/
theorem viewSubmissions_length_le_one (enabled : Bool) (cycles : List Nat) :
    (viewSubmissions enabled cycles false).length ≤ 1 := by
  induction cycles with
  | nil => simp [viewSubmissions]
  | cons c rest ih =>
    rcases viewCleanup_false_cases enabled c with h | h
    · unfold viewSubmissions
      rw [h]
      exact ih
    · unfold viewSubmissions
      rw [h]
      simp [viewSubmissions_tracked]

/-- Helper for C4: a disabled hook never submits. -/
theorem viewSubmissions_disabled (cycles : List Nat) :
    viewSubmissions false cycles false = [] := by
  induction cycles with
  | nil => rfl
  | cons c rest ih =>
    unfold viewSubmissions viewCleanup
    simpa using ih

/-- C4: a view interaction is submitted on unmount iff the elapsed time
floor(ms / 1000) is at least 5 seconds, the submitted time_spent_seconds
equals that floored value, and over any sequence of effect cycles of one
mount at most one view interaction is submitted (none when the hook is
disabled). -/
theorem useInteractionTracking_view_submission :
    (∀ elapsedMs : Nat,
      (viewCleanup true false elapsedMs).1 =
        if 5 ≤ elapsedMs / 1000 then some (elapsedMs / 1000) else none) ∧
    (∀ (enabled : Bool) (cycles : List Nat),
      (viewSubmissions enabled cycles false).length ≤ 1) ∧
    (∀ cycles : List Nat, viewSubmissions false cycles false = []) := by
  refine ⟨?_, viewSubmissions_length_le_one, viewSubmissions_disabled⟩
  intro elapsedMs
  by_cases h : 5 ≤ elapsedMs / 1000 <;> simp [viewCleanup, h]

/-- C3 (spec-modelled): the ranked items of a recommendation response are
non-increasing in match_score; on equal match_score, semantic_similarity
is non-increasing; on equal match_score and semantic_similarity,
tender_id is ascending — and the ranked list is a permutation of its
input. -/
theorem recommendations_response_ordering :
    ∀ items : List RecItem,
      (rankRecommendations items).Pairwise (fun a b =>
        b.match_score ≤ a.match_score ∧
        (b.match_score = a.match_score →
          b.semantic_similarity ≤ a.semantic_similarity) ∧
        (b.match_score = a.match_score →
          b.semantic_similarity = a.semantic_similarity →
          a.tender_id ≤ b.tender_id)) ∧
      (rankRecommendations items).Perm items := by
  intro items
  constructor
  · refine List.Pairwise.imp ?_ (List.sorted_insertionSort recRank items)
    intro a b hab
    rcases hab with h | ⟨e, h⟩
    · refine ⟨le_of_lt h, ?_, ?_⟩
      · intro he
        exact absurd h (by rw [he]; exact lt_irrefl _)
      · intro he _
        exact absurd h (by rw [he]; exact lt_irrefl _)
    · refine ⟨le_of_eq e.symm, ?_, ?_⟩
      · intro _
        rcases h with h2 | ⟨f, _⟩
        · exact le_of_lt h2
        · exact le_of_eq f.symm
      · intro _ hf
        rcases h with h2 | ⟨f, hi⟩
        · exact absurd h2 (by rw [hf]; exact lt_irrefl _)
        · exact hi
  · exact List.perm_insertionSort recRank items

end TenderLens
